import Mathlib

/-!
Shallow embedding of the actor-ownership and control-handoff subsystem of the
SMARTS repository: the `VehicleIndex` registry (smarts/core/vehicle_index.py)
and the `AgentManager` lifecycle manager (smarts/core/agent_manager.py).

Modelling conventions, matching the source:
* Identifiers are plain strings.  The fixed-length `_2id` byte packing of the
  source is an invertible storage artifact (the source keeps a `_2id_to_id`
  inverse map and assumes global uniqueness), so ids are used directly.
* The `_controlled_by` numpy record array is a list of `ControlEntity` rows.
* Absent owner/shadower ids are stored as the empty string, exactly as the
  source stores the empty byte string in the record array.
* Fallible operations (`KeyError` / `IndexError` / failing asserts in the
  source) return `Option`, with `none` for the raised exception.
* External collaborators (physics chassis, sensors, renderer, traffic
  providers, the remote-agent process pool) are out of scope per the spec;
  only the data the registry itself stores about them is modelled.
-/

namespace SMARTS

/-- Roles of an actor.  The source file smarts/core/actor.py is outside the
provided sources; the registry code references the members `EgoAgent`,
`SocialAgent` and `Social` (the latter is the role of traffic vehicles, called
the `Traffic` role by the spec), plus further non-agent roles.  `Unknown`
stands for any other non-agent member of the enum. -/
inductive ActorRole where
  | Unknown
  | Social
  | SocialAgent
  | EgoAgent
  | External
  deriving DecidableEq

/-- One row of the `_controlled_by` record array of `VehicleIndex`.  The
`position` column holds a cached 3d position; its numeric contents are
irrelevant to control handoff, so coordinates are modelled as integers. -/
structure ControlEntity where
  vehicle_id : String
  owner_id : String
  role : ActorRole
  shadower_id : String
  is_boid : Bool
  is_hijacked : Bool
  position : Int × Int × Int
  deriving DecidableEq

/-- The `VehicleIndex` registry: the `_controlled_by` rows together with the
key set of the `_vehicles` dictionary.  The `Vehicle` objects themselves
(chassis, pose) are external physics state and are not modelled. -/
structure VehicleIndex where
  controlled_by : List ControlEntity
  vehicles : List String
  deriving DecidableEq

/-- First row of the record array matching a vehicle id. -/
def entityFor (l : List ControlEntity) (vid : String) : Option ControlEntity :=
  l.find? (fun e => decide (e.vehicle_id = vid))

/-- Row of the registry for a vehicle id, `none` when the vehicle is unknown. -/
def findEntity (idx : VehicleIndex) (vid : String) : Option ControlEntity :=
  entityFor idx.controlled_by vid

/-- Assignment `self._controlled_by[v_index] = e1` of the source: every row
matching the vehicle id is replaced by the updated row. -/
def updateRows (l : List ControlEntity) (vid : String) (e1 : ControlEntity) :
    List ControlEntity :=
  l.map (fun r => if r.vehicle_id = vid then e1 else r)

/-- The read-modify-write pattern
`entity = _ControlEntity(*self._controlled_by[v_index][0])` followed by
`self._controlled_by[v_index] = tuple(entity._replace(...))`.
`none` models the `IndexError` raised when no row matches. -/
def updateEntity (l : List ControlEntity) (vid : String)
    (f : ControlEntity → ControlEntity) : Option (List ControlEntity) :=
  match entityFor l vid with
  | none => none
  | some e => some (updateRows l vid (f e))

/-- `VehicleIndex.vehicle_is_hijacked_or_shadowed`: `(False, False)` when the
vehicle is unknown, else the `is_hijacked` flag and the truthiness of the
stored shadower id. -/
def vehicle_is_hijacked_or_shadowed (idx : VehicleIndex) (vehicle_id : String) :
    Bool × Bool :=
  match findEntity idx vehicle_id with
  | none => (false, false)
  | some e => (e.is_hijacked, decide (e.shadower_id ≠ ""))

/-- `VehicleIndex.vehicle_ids_by_owner_id`: ids of all vehicles whose owner
(and, when `include_shadowers` is set, whose shadower) is the given id. -/
def vehicle_ids_by_owner_id (idx : VehicleIndex) (owner_id : String)
    (include_shadowers : Bool) : List String :=
  (idx.controlled_by.filter
      (fun e => decide (e.owner_id = owner_id)
        || (include_shadowers && decide (e.shadower_id = owner_id)))).map
    (fun e => e.vehicle_id)

/-- `VehicleIndex.owner_id_from_vehicle_id`: the owner of a vehicle, `none`
when the vehicle is unknown or the stored owner id is the empty (falsy)
string, mirroring the `if owner_ids:` truthiness test of the source. -/
def owner_id_from_vehicle_id (idx : VehicleIndex) (vehicle_id : String) :
    Option String :=
  match findEntity idx vehicle_id with
  | none => none
  | some e => if e.owner_id = "" then none else some e.owner_id

/-- `VehicleIndex.vehicle_position`: the cached position column of the row for
the vehicle, `none` when absent. -/
def vehicle_position (idx : VehicleIndex) (vehicle_id : String) :
    Option (Int × Int × Int) :=
  (findEntity idx vehicle_id).map (fun e => e.position)

/-- `VehicleIndex.agent_vehicle_ids`: ids of all vehicles whose role is
`EgoAgent` or `SocialAgent`. -/
def agent_vehicle_ids (idx : VehicleIndex) : List String :=
  (idx.controlled_by.filter
      (fun e => decide (e.role = ActorRole.EgoAgent)
        || decide (e.role = ActorRole.SocialAgent))).map
    (fun e => e.vehicle_id)

/-- `VehicleIndex.switch_control_to_agent` on the default (non-`recreate`)
path.  The source first looks the vehicle up in `_vehicles` (a `KeyError` when
absent), swaps the chassis (external physics, pose and speed carried over),
then rewrites the row: `role = SocialAgent if hijacking else EgoAgent`,
`owner_id = agent_id`, `shadower_id = b""`, `is_boid = boid`,
`is_hijacked = hijacking`.  No check of a pre-existing owner is performed. -/
def switch_control_to_agent (idx : VehicleIndex) (vehicle_id agent_id : String)
    (boid hijacking : Bool) : Option VehicleIndex :=
  if vehicle_id ∈ idx.vehicles then
    (updateEntity idx.controlled_by vehicle_id (fun e =>
        { e with
          role := if hijacking then ActorRole.SocialAgent else ActorRole.EgoAgent
          owner_id := agent_id
          shadower_id := ""
          is_boid := boid
          is_hijacked := hijacking })).map
      (fun cb => { idx with controlled_by := cb })
  else none

/-- `VehicleIndex.stop_agent_observation`: strips the shadower from the row of
the vehicle.  `none` models the `KeyError`/`IndexError` on an unknown
vehicle. -/
def stop_agent_observation (idx : VehicleIndex) (vehicle_id : String) :
    Option VehicleIndex :=
  if vehicle_id ∈ idx.vehicles then
    (updateEntity idx.controlled_by vehicle_id
        (fun e => { e with shadower_id := "" })).map
      (fun cb => { idx with controlled_by := cb })
  else none

/-- `VehicleIndex.relinquish_agent_control`: calls `stop_agent_observation`,
detaches sensors and swaps the chassis back to a box chassis (both external),
then rewrites the row to `role = Social` (the spec's `Traffic`),
`owner_id = b""`, `shadower_id = b""`, `is_boid = False`,
`is_hijacked = False`.  The returned vehicle state and route are data of the
external sensor/physics subsystems and are not modelled. -/
def relinquish_agent_control (idx : VehicleIndex) (vehicle_id : String) :
    Option VehicleIndex :=
  (stop_agent_observation idx vehicle_id).bind (fun idx1 =>
    if vehicle_id ∈ idx1.vehicles then
      (updateEntity idx1.controlled_by vehicle_id (fun e =>
          { e with
            role := ActorRole.Social
            owner_id := ""
            shadower_id := ""
            is_boid := false
            is_hijacked := false })).map
        (fun cb => { idx1 with controlled_by := cb })
    else none)

/-- Python truthiness of an optional string: `x if x else d`. -/
def orElseId (x : Option String) (d : String) : String :=
  match x with
  | none => d
  | some s => if s = "" then d else s

/-- `VehicleIndex.build_social_vehicle`: builds a vehicle for a non-agent
actor.  The vehicle is first entered into `_vehicles`; the role of the given
vehicle state is then asserted to be neither `EgoAgent` nor `SocialAgent`
(`none` models the failing assert, raised before any record is inserted), and
a fresh row is inserted at index 0 with the state's role, the given owner (the
empty string when falsy), no shadower, and cleared boid/hijacked flags. -/
def build_social_vehicle (idx : VehicleIndex) (role : ActorRole)
    (owner_id : Option String) (vehicle_id : String) (pos : Int × Int × Int) :
    Option VehicleIndex :=
  if role = ActorRole.EgoAgent ∨ role = ActorRole.SocialAgent then none
  else
    some
      { controlled_by :=
          { vehicle_id := vehicle_id
            owner_id := orElseId owner_id ""
            role := role
            shadower_id := ""
            is_boid := false
            is_hijacked := false
            position := pos } :: idx.controlled_by
        vehicles := vehicle_id :: idx.vehicles }

/-- `VehicleIndex._enfranchise_agent`: inserts a fresh agent-controlled row at
index 0 of the record array and registers the vehicle. -/
def enfranchise_agent (idx : VehicleIndex) (agent_id vehicle_id : String)
    (boid hijacking : Bool) (pos : Int × Int × Int) : VehicleIndex :=
  { controlled_by :=
      { vehicle_id := vehicle_id
        owner_id := agent_id
        role := if hijacking then ActorRole.SocialAgent else ActorRole.EgoAgent
        shadower_id := ""
        is_boid := boid
        is_hijacked := hijacking
        position := pos } :: idx.controlled_by
    vehicles := vehicle_id :: idx.vehicles }

/-- `VehicleIndex.build_agent_vehicle`: builds a vehicle under
`vehicle_id or agent_id` and enfranchises the agent with
`hijacking=False`. -/
def build_agent_vehicle (idx : VehicleIndex) (agent_id : String)
    (vehicle_id : Option String) (boid : Bool) (pos : Int × Int × Int) :
    VehicleIndex :=
  enfranchise_agent idx agent_id (orElseId vehicle_id agent_id) boid false pos

/-! ## Python dictionaries as association lists

Python dictionaries are modelled as association lists in insertion order.
`dget` is `d.get(k)` (first binding wins; Python dictionaries hold each key
once), `dset` is `d[k] = v` (replace in place, or append a fresh key). -/

/-- Dictionary lookup `d.get(k)`. -/
def dget {α : Type} (d : List (String × α)) (k : String) : Option α :=
  (d.find? (fun p => decide (p.1 = k))).map (fun p => p.2)

/-- Dictionary assignment `d[k] = v`. -/
def dset {α : Type} (d : List (String × α)) (k : String) (v : α) :
    List (String × α) :=
  if (d.find? (fun p => decide (p.1 = k))).isSome then
    d.map (fun p => if p.1 = k then (k, v) else p)
  else d ++ [(k, v)]

/-- Keys of a dictionary. -/
def dkeys {α : Type} (d : List (String × α)) : List String :=
  d.map (fun p => p.1)

/-- The Python dictionary merge `{**a, **b}`: the keys of `a` in order with
values overridden by `b` where present, followed by the keys of `b` not in
`a`. -/
def pyMerge {α : Type} (a b : List (String × α)) : List (String × α) :=
  a.map (fun p =>
      match dget b p.1 with
      | some v => (p.1, v)
      | none => p)
    ++ b.filter (fun p => (dget a p.1).isNone)

/-- A Python value carried as an action: `None`, a flat (per-agent) action, or
a per-vehicle dictionary of actions as produced by boid agents. -/
inductive PyVal (β : Type) where
  | none
  | flat (b : β)
  | dict (m : List (String × β))
  deriving DecidableEq

/-- The social-agent data model (smarts/core/data_model.py is outside the
provided sources; the lifecycle manager reads exactly the fields
`actor_name`, `is_boid` and `is_boid_keep_alive`). -/
structure SocialAgentModel where
  actor_name : String
  is_boid : Bool
  is_boid_keep_alive : Bool

/-- One external provider as seen by a single `_add_agent` call: whether the
agent's action space is in `provider.actions`, and whether
`provider.can_accept_actor` accepts the built vehicle state. -/
structure Provider where
  has_action : Bool
  can_accept : Bool

/-- The `AgentManager` state.  Remote social agents are modelled by their
controller handle, a function from the observation to the resolved action of
the returned future (`handle.act(obs)`); futures in
`remote_social_agents_action` are modelled by their resolved value.  The
interface and callback dictionaries, which no modelled operation reads, are
omitted. -/
structure AgentManager (β Obs : Type) where
  vehicle_index : VehicleIndex
  ego_agent_ids : List String
  social_agent_ids : List String
  pending_agent_ids : List String
  pending_social_agent_ids : List String
  social_agent_data_models : List (String × SocialAgentModel)
  remote_social_agents : List (String × (Obs → PyVal β))
  remote_social_agents_action : List (String × PyVal β)
  reserved_social_agent_actions : List (String × PyVal β)
  providers : List Provider
  agent_buffer_acquired : Nat

namespace AgentManager

variable {β Obs : Type}

/-- `AgentManager.vehicles_for_agent`: vehicles associated with an agent,
shadowed vehicles included (`include_shadowers=True`). -/
def vehicles_for_agent (mgr : AgentManager β Obs) (agent_id : String) :
    List String :=
  vehicle_ids_by_owner_id mgr.vehicle_index agent_id true

/-- `AgentManager.agent_has_vehicle`: `len(self.vehicles_for_agent(id)) > 0`. -/
def agent_has_vehicle (mgr : AgentManager β Obs) (agent_id : String) : Bool :=
  decide (0 < (mgr.vehicles_for_agent agent_id).length)

/-- `AgentManager.is_boid_agent`: false for an agent with no social-agent data
model. -/
def is_boid_agent (mgr : AgentManager β Obs) (agent_id : String) : Bool :=
  match dget mgr.social_agent_data_models agent_id with
  | Option.none => false
  | some m => m.is_boid

/-- `AgentManager.is_boid_keep_alive_agent`. -/
def is_boid_keep_alive_agent (mgr : AgentManager β Obs) (agent_id : String) :
    Bool :=
  match dget mgr.social_agent_data_models agent_id with
  | Option.none => false
  | some m => m.is_boid_keep_alive

/-- `AgentManager.is_boid_done`: false for a keep-alive boid agent, false for
an agent with an associated vehicle, true otherwise. -/
def is_boid_done (mgr : AgentManager β Obs) (agent_id : String) : Bool :=
  if mgr.is_boid_keep_alive_agent agent_id then false
  else if mgr.agent_has_vehicle agent_id then false
  else true

/-- The set comprehension of
`_filter_social_agent_actions_for_controlled_vehicles`: the owners of all
agent-controlled vehicles. -/
def controlling_agent_ids (mgr : AgentManager β Obs) : List (Option String) :=
  (agent_vehicle_ids mgr.vehicle_index).map
    (owner_id_from_vehicle_id mgr.vehicle_index)

/-- Effectful element-wise map over a list, failing when the function fails
on any element. -/
def omap {α γ : Type} (f : α → Option γ) : List α → Option (List γ)
  | [] => some []
  | x :: xs =>
    match f x with
    | Option.none => Option.none
    | some y => (omap f xs).map (fun ys => y :: ys)

/-- `AgentManager._filter_social_agent_actions_for_controlled_vehicles`:
entries are kept only for agents owning at least one agent-controlled vehicle;
the per-vehicle dictionary of a boid agent is then filtered to the vehicles
the boid owns (`include_shadowers=False`).  `none` models the exception raised
by `actions.items()` when a kept boid entry is not a dictionary (including the
`None` placeholder of an agent that returned no action). -/
def filter_social_agent_actions_for_controlled_vehicles
    (mgr : AgentManager β Obs) (social_agent_actions : List (String × PyVal β)) :
    Option (List (String × PyVal β)) :=
  omap
    (fun p =>
      if mgr.is_boid_agent p.1 then
        match p.2 with
        | PyVal.dict m =>
          some (p.1, PyVal.dict (m.filter (fun q =>
            decide (q.1 ∈ vehicle_ids_by_owner_id mgr.vehicle_index p.1 false))))
        | _ => Option.none
      else some p)
    (social_agent_actions.filter
      (fun p => decide (some p.1 ∈ mgr.controlling_agent_ids)))

/-- The dictionary comprehension opening `fetch_agent_actions`: for every
remote social agent, the resolved value of its pending future when one is
stored (a future object is truthy), else `None`. -/
def resolved_social_actions (mgr : AgentManager β Obs) :
    List (String × PyVal β) :=
  mgr.remote_social_agents.map
    (fun p => (p.1, (dget mgr.remote_social_agents_action p.1).getD PyVal.none))

/-- `AgentManager.fetch_agent_actions`: resolve the social actions, filter
them to controlled vehicles, and return `{**ego_agent_actions,
**social_agent_actions}`. -/
def fetch_agent_actions (mgr : AgentManager β Obs)
    (ego_agent_actions : List (String × PyVal β)) :
    Option (List (String × PyVal β)) :=
  (mgr.filter_social_agent_actions_for_controlled_vehicles
      mgr.resolved_social_actions).map
    (fun social_agent_actions => pyMerge ego_agent_actions social_agent_actions)

/-- `AgentManager.reserve_social_agent_action`: record a one-shot action
override for an agent. -/
def reserve_social_agent_action (mgr : AgentManager β Obs) (agent_id : String)
    (action : PyVal β) : AgentManager β Obs :=
  { mgr with
    reserved_social_agent_actions :=
      dset mgr.reserved_social_agent_actions agent_id action }

/-- Loop of `_send_observations_to_social_agents` over
`self._remote_social_agents.items()`: an agent whose action dictionary entry
already exists (its reserved future) is skipped; otherwise the tick's
observation for the agent is looked up (`none` models the `KeyError` when it
is missing) and an action request `remote_agent.act(obs)` is issued.  The
second component collects the agents a request was issued for. -/
def send_go (observations : List (String × Obs)) :
    List (String × (Obs → PyVal β)) → List (String × PyVal β) → List String →
    Option (List (String × PyVal β) × List String)
  | [], acc, requested => some (acc, requested)
  | p :: rest, acc, requested =>
    if (dget acc p.1).isSome then send_go observations rest acc requested
    else
      match dget observations p.1 with
      | Option.none => Option.none
      | some o =>
        send_go observations rest (dset acc p.1 (p.2 o)) (requested ++ [p.1])

/-- `AgentManager._send_observations_to_social_agents`: the action dictionary
is rebuilt from scratch, seeded with an already-resolved future for every
reserved action; the reservation table is cleared; every remote agent without
a reserved action gets an asynchronous action request.  The observation
callbacks are external side effects.  The list of agents a request was issued
for is returned alongside the new state. -/
def send_observations_to_social_agents (mgr : AgentManager β Obs)
    (observations : List (String × Obs)) :
    Option (AgentManager β Obs × List String) :=
  (send_go observations mgr.remote_social_agents
      mgr.reserved_social_agent_actions []).map
    (fun pr =>
      ({ mgr with
          remote_social_agents_action := pr.1
          reserved_social_agent_actions := [] },
        pr.2))

/-- `AgentManager._add_agent`: builds an owned vehicle via
`VehicleIndex.build_agent_vehicle` (vehicle id `agent_model.actor_name`,
enfranchised with `hijacking=False`), then registers the vehicle state with
the first provider that lists the agent's action space and accepts the actor;
`none` models the failing assert when no provider does.  Mission, plan and the
interface dictionary are external data. -/
def add_agent (mgr : AgentManager β Obs) (agent_id : String)
    (agent_model : SocialAgentModel) (boid : Bool) (trainable : Bool)
    (pos : Int × Int × Int) : Option (AgentManager β Obs) :=
  let idx1 := build_agent_vehicle mgr.vehicle_index agent_id
    (some agent_model.actor_name) boid pos
  let _ := trainable
  if mgr.providers.any (fun p => p.has_action && p.can_accept) then
    some
      { mgr with
        vehicle_index := idx1
        social_agent_data_models :=
          dset mgr.social_agent_data_models agent_id agent_model }
  else Option.none

/-- `AgentManager.add_and_emit_social_agent`: returns `False` untouched when
the agent id is already an ego/social agent id or a pending agent id;
otherwise sets up the agent buffer and acquires a remote handle from the
external pool (`remote_agent`, passed in as the pool's answer), adds the agent
and its vehicle, removes the id from the pending social ids, starts the
handle, and records the remote agent, the social agent id and the data
model. -/
def add_and_emit_social_agent (mgr : AgentManager β Obs) (agent_id : String)
    (agent_model : SocialAgentModel) (remote_agent : Obs → PyVal β)
    (pos : Int × Int × Int) : Option (Bool × AgentManager β Obs) :=
  if agent_id ∈ mgr.ego_agent_ids ∨ agent_id ∈ mgr.social_agent_ids
      ∨ agent_id ∈ mgr.pending_agent_ids then
    some (false, mgr)
  else
    let mgr1 :=
      { mgr with agent_buffer_acquired := mgr.agent_buffer_acquired + 1 }
    (add_agent mgr1 agent_id agent_model false false pos).map (fun mgr2 =>
      let mgr3 :=
        { mgr2 with
          pending_social_agent_ids :=
            mgr2.pending_social_agent_ids.filter
              (fun x => !decide (x = agent_id)) }
      (true,
        { mgr3 with
          remote_social_agents :=
            dset mgr3.remote_social_agents agent_id remote_agent
          social_agent_ids :=
            if agent_id ∈ mgr3.social_agent_ids then mgr3.social_agent_ids
            else agent_id :: mgr3.social_agent_ids
          social_agent_data_models :=
            dset mgr3.social_agent_data_models agent_id agent_model }))

end AgentManager

/-! ## General lemmas about the dictionary and record-array operations -/

theorem dget_cons {α : Type} (p : String × α) (d : List (String × α))
    (k : String) : dget (p :: d) k = if p.1 = k then some p.2 else dget d k := by
  by_cases h : p.1 = k
  · simp [dget, List.find?_cons_of_pos, h]
  · simp [dget, List.find?_cons_of_neg, h]

theorem dget_append {α : Type} (l1 l2 : List (String × α)) (k : String) :
    dget (l1 ++ l2) k =
      match dget l1 k with
      | some v => some v
      | Option.none => dget l2 k := by
  induction l1 with
  | nil => simp [dget]
  | cons p t ih =>
    by_cases h : p.1 = k
    · simp [dget_cons, h]
    · simp [dget_cons, h, ih]

theorem dget_map_override {α : Type} (a b : List (String × α)) (k : String) :
    dget (a.map (fun p =>
        match dget b p.1 with
        | some v => (p.1, v)
        | Option.none => p)) k =
      match dget a k with
      | some v => some ((dget b k).getD v)
      | Option.none => Option.none := by
  induction a with
  | nil => simp [dget]
  | cons p t ih =>
    by_cases h : p.1 = k
    · cases hb : dget b p.1 <;> simp [dget_cons, h, hb, h ▸ hb]
    · cases hb : dget b p.1 <;> simp [dget_cons, h, hb, ih]

theorem dget_filter_keydep {α : Type} (l : List (String × α))
    (pred : String × α → Bool) (k : String)
    (hk : ∀ p : String × α, p.1 = k → pred p = true) :
    dget (l.filter pred) k = dget l k := by
  induction l with
  | nil => rfl
  | cons p t ih =>
    by_cases h : p.1 = k
    · simp [List.filter_cons, hk p h, dget_cons, h]
    · cases hp : pred p <;> simp [List.filter_cons, hp, dget_cons, h, ih]

theorem dget_filter_of_none {α : Type} (l : List (String × α))
    (pred : String × α → Bool) (k : String) (h : dget l k = Option.none) :
    dget (l.filter pred) k = Option.none := by
  induction l with
  | nil => rfl
  | cons p t ih =>
    by_cases hp : p.1 = k
    · rw [dget_cons, if_pos hp] at h; exact absurd h (by simp)
    · rw [dget_cons, if_neg hp] at h
      cases hq : pred p <;> simp [List.filter_cons, hq, dget_cons, hp, ih h]

theorem dget_pyMerge_right {α : Type} (a b : List (String × α)) (k : String)
    (v : α) (h : dget b k = some v) : dget (pyMerge a b) k = some v := by
  unfold pyMerge
  rw [dget_append]
  cases ha : dget a k with
  | some w => simp [dget_map_override, ha, h]
  | none =>
    have hfil : dget (b.filter (fun p => (dget a p.1).isNone)) k = dget b k := by
      refine dget_filter_keydep b _ k (fun p hp => ?_)
      rw [hp, ha]; rfl
    simp [dget_map_override, ha, hfil, h]

theorem dget_pyMerge_of_none {α : Type} (a b : List (String × α)) (k : String)
    (h : dget b k = Option.none) : dget (pyMerge a b) k = dget a k := by
  unfold pyMerge
  rw [dget_append]
  cases ha : dget a k with
  | some w => simp [dget_map_override, ha, h]
  | none =>
    have hfil : dget (b.filter (fun p => (dget a p.1).isNone)) k = dget b k := by
      refine dget_filter_keydep b _ k (fun p hp => ?_)
      rw [hp, ha]; rfl
    simp [dget_map_override, ha, hfil, h]

theorem mem_dkeys_of_dget {α : Type} (l : List (String × α)) (k : String)
    (v : α) (h : dget l k = some v) : k ∈ dkeys l := by
  induction l with
  | nil => exact absurd h (by simp [dget])
  | cons p t ih =>
    by_cases hp : p.1 = k
    · exact hp ▸ List.mem_cons_self _ _
    · rw [dget_cons, if_neg hp] at h
      exact List.mem_cons_of_mem _ (ih h)

theorem find?_of_mem_dkeys {α : Type} (l : List (String × α)) (k : String)
    (h : k ∈ dkeys l) :
    ∃ p, l.find? (fun p => decide (p.1 = k)) = some p ∧ p.1 = k := by
  induction l with
  | nil => exact absurd h (by simp [dkeys])
  | cons q t ih =>
    by_cases hq : q.1 = k
    · exact ⟨q, by simp [List.find?_cons_of_pos, hq], hq⟩
    · have ht : k ∈ dkeys t := by
        rcases List.mem_cons.mp h with h1 | h1
        · exact absurd h1.symm hq
        · exact h1
      rcases ih ht with ⟨p, hp1, hp2⟩
      exact ⟨p, by simp [List.find?_cons_of_neg, hq, hp1], hp2⟩

theorem find?_filter_keydep {α : Type} (l : List (String × α))
    (pred : String × α → Bool) (k : String)
    (hk : ∀ p : String × α, p.1 = k → pred p = true) :
    (l.filter pred).find? (fun p => decide (p.1 = k)) =
      l.find? (fun p => decide (p.1 = k)) := by
  induction l with
  | nil => rfl
  | cons p t ih =>
    by_cases h : p.1 = k
    · simp [List.filter_cons, hk p h, List.find?_cons_of_pos, h]
    · cases hp : pred p <;>
        simp [List.filter_cons, hp, List.find?_cons_of_neg, h, ih]

theorem find?_map_keyed {α γ : Type} (g : String → γ) (l : List (String × α))
    (k : String) :
    (l.map (fun p => (p.1, g p.1))).find? (fun q => decide (q.1 = k)) =
      (l.find? (fun p => decide (p.1 = k))).map (fun p => (p.1, g p.1)) := by
  induction l with
  | nil => rfl
  | cons p t ih =>
    by_cases h : p.1 = k
    · simp [List.find?_cons_of_pos, h]
    · simp [List.find?_cons_of_neg, h, ih]

theorem dget_map_setk {α : Type} (d : List (String × α)) (k k1 : String)
    (v : α) (h : k ≠ k1) :
    dget (d.map (fun p => if p.1 = k1 then (k1, v) else p)) k = dget d k := by
  induction d with
  | nil => rfl
  | cons p t ih =>
    by_cases hp : p.1 = k1
    · have h1 : ¬(k1 = k) := fun he => h he.symm
      have h2 : ¬(p.1 = k) := by rw [hp]; exact h1
      simp only [List.map_cons, if_pos hp, dget_cons, if_neg h1, if_neg h2]
      exact ih
    · by_cases hk : p.1 = k
      · simp only [List.map_cons, if_neg hp, dget_cons, if_pos hk]
      · simp only [List.map_cons, if_neg hp, dget_cons, if_neg hk]
        exact ih

theorem dget_dset_ne {α : Type} (d : List (String × α)) (k k1 : String)
    (v : α) (h : k ≠ k1) : dget (dset d k1 v) k = dget d k := by
  unfold dset
  split
  · exact dget_map_setk d k k1 v h
  · rw [dget_append]
    cases hd : dget d k with
    | some w => rfl
    | none =>
      have h2 : dget [(k1, v)] k = (Option.none : Option α) := by
        rw [dget_cons, if_neg (fun he : k1 = k => h he.symm)]
        rfl
      exact h2

namespace AgentManager

theorem omap_mem {α γ : Type} (f : α → Option γ) :
    ∀ (l : List α) (out : List γ), omap f l = some out →
      ∀ y ∈ out, ∃ x ∈ l, f x = some y := by
  intro l
  induction l with
  | nil =>
    intro out h y hy
    unfold omap at h
    cases h
    simp at hy
  | cons x xs ih =>
    intro out h y hy
    unfold omap at h
    cases hfx : f x with
    | none => rw [hfx] at h; exact absurd h (by simp)
    | some z =>
      rw [hfx] at h
      cases hrest : omap f xs with
      | none => rw [hrest] at h; exact absurd h (by simp)
      | some ys =>
        rw [hrest] at h
        simp only [Option.map_some'] at h
        cases h
        rcases List.mem_cons.mp hy with h1 | h1
        · exact ⟨x, List.mem_cons_self _ _, h1 ▸ hfx⟩
        · rcases ih ys hrest y h1 with ⟨x1, hx1, hx2⟩
          exact ⟨x1, List.mem_cons_of_mem _ hx1, hx2⟩

theorem dkeys_omap {α γ : Type} (f : (String × α) → Option (String × γ))
    (hkey : ∀ p q, f p = some q → q.1 = p.1) :
    ∀ (l : List (String × α)) (out : List (String × γ)),
      omap f l = some out → dkeys out = dkeys l := by
  intro l
  induction l with
  | nil => intro out h; unfold omap at h; cases h; rfl
  | cons x xs ih =>
    intro out h
    unfold omap at h
    cases hfx : f x with
    | none => rw [hfx] at h; exact absurd h (by simp)
    | some z =>
      rw [hfx] at h
      cases hrest : omap f xs with
      | none => rw [hrest] at h; exact absurd h (by simp)
      | some ys =>
        rw [hrest] at h
        simp only [Option.map_some'] at h
        cases h
        have ht := ih ys hrest
        simp only [dkeys, List.map_cons] at ht ⊢
        rw [hkey x z hfx, ht]

theorem find?_omap {α γ : Type} (f : (String × α) → Option (String × γ))
    (hkey : ∀ p q, f p = some q → q.1 = p.1) :
    ∀ (l : List (String × α)) (out : List (String × γ)),
      omap f l = some out → ∀ k : String,
        out.find? (fun q => decide (q.1 = k)) =
          (l.find? (fun p => decide (p.1 = k))).bind f := by
  intro l
  induction l with
  | nil => intro out h k; unfold omap at h; cases h; rfl
  | cons x xs ih =>
    intro out h k
    unfold omap at h
    cases hfx : f x with
    | none => rw [hfx] at h; exact absurd h (by simp)
    | some z =>
      rw [hfx] at h
      cases hrest : omap f xs with
      | none => rw [hrest] at h; exact absurd h (by simp)
      | some ys =>
        rw [hrest] at h
        simp only [Option.map_some'] at h
        cases h
        by_cases hx : x.1 = k
        · have hz : z.1 = k := (hkey x z hfx) ▸ hx
          simp [List.find?_cons_of_pos, hx, hz, hfx]
        · have hz : ¬(z.1 = k) := by rw [hkey x z hfx]; exact hx
          simp [List.find?_cons_of_neg, hx, hz, ih ys hrest k]

theorem send_go_keeps {β Obs : Type} (observations : List (String × Obs))
    (a : String) (r : PyVal β) :
    ∀ (rest : List (String × (Obs → PyVal β))) (acc : List (String × PyVal β))
      (req : List String), dget acc a = some r → a ∉ req →
      ∀ out, send_go observations rest acc req = some out →
        dget out.1 a = some r ∧ a ∉ out.2 := by
  intro rest
  induction rest with
  | nil =>
    intro acc req h1 h2 out hout
    unfold send_go at hout
    cases hout
    exact ⟨h1, h2⟩
  | cons p t ih =>
    intro acc req h1 h2 out hout
    unfold send_go at hout
    by_cases hs : (dget acc p.1).isSome
    · rw [if_pos hs] at hout
      exact ih acc req h1 h2 out hout
    · rw [if_neg hs] at hout
      cases ho : dget observations p.1 with
      | none => rw [ho] at hout; exact absurd hout (by simp)
      | some o =>
        rw [ho] at hout
        have hne : a ≠ p.1 := by
          intro he
          rw [← he, h1] at hs
          exact hs rfl
        refine ih _ _ ?_ ?_ out hout
        · rw [dget_dset_ne acc a p.1 _ hne]; exact h1
        · simp [hne, h2]

end AgentManager

/-! ## Lemmas about the record-array update pattern -/

theorem entityFor_vid (l : List ControlEntity) (vid : String)
    (e : ControlEntity) (h : entityFor l vid = some e) : e.vehicle_id = vid := by
  have := List.find?_some h
  simpa using this

theorem entityFor_updateRows_self (l : List ControlEntity) (vid : String)
    (e e1 : ControlEntity) (h : entityFor l vid = some e)
    (he1 : e1.vehicle_id = vid) :
    entityFor (updateRows l vid e1) vid = some e1 := by
  induction l with
  | nil => exact absurd h (by simp [entityFor])
  | cons r t ih =>
    by_cases hr : r.vehicle_id = vid
    · simp [updateRows, entityFor, hr, List.find?_cons_of_pos, he1]
    · have h1 : entityFor t vid = some e := by
        simpa [entityFor, List.find?_cons_of_neg, hr] using h
      have h2 := ih h1
      simpa [updateRows, entityFor, List.find?_cons_of_neg, hr] using h2

theorem updateRows_filter_ne (l : List ControlEntity) (vid : String)
    (e1 : ControlEntity) (he1 : e1.vehicle_id = vid) :
    (updateRows l vid e1).filter (fun r => !decide (r.vehicle_id = vid)) =
      l.filter (fun r => !decide (r.vehicle_id = vid)) := by
  induction l with
  | nil => rfl
  | cons r t ih =>
    by_cases hr : r.vehicle_id = vid
    · simp [updateRows, List.filter_cons, hr, he1] at ih ⊢
      exact ih
    · simp [updateRows, List.filter_cons, hr] at ih ⊢
      exact ih

theorem switch_control_to_agent_eq (idx : VehicleIndex) (v a : String)
    (boid hij : Bool) (e : ControlEntity) (h : findEntity idx v = some e)
    (hv : v ∈ idx.vehicles) :
    switch_control_to_agent idx v a boid hij =
      some
        { controlled_by :=
            updateRows idx.controlled_by v
              { e with
                role := if hij then ActorRole.SocialAgent else ActorRole.EgoAgent
                owner_id := a
                shadower_id := ""
                is_boid := boid
                is_hijacked := hij }
          vehicles := idx.vehicles } := by
  unfold switch_control_to_agent updateEntity
  rw [if_pos hv]
  unfold findEntity at h
  rw [h]
  rfl

theorem stop_agent_observation_eq (idx : VehicleIndex) (v : String)
    (e : ControlEntity) (h : findEntity idx v = some e) (hv : v ∈ idx.vehicles) :
    stop_agent_observation idx v =
      some
        { controlled_by := updateRows idx.controlled_by v { e with shadower_id := "" }
          vehicles := idx.vehicles } := by
  unfold stop_agent_observation updateEntity
  rw [if_pos hv]
  unfold findEntity at h
  rw [h]
  rfl

theorem relinquish_agent_control_eq (idx : VehicleIndex) (v : String)
    (e : ControlEntity) (h : findEntity idx v = some e) (hv : v ∈ idx.vehicles) :
    relinquish_agent_control idx v =
      some
        { controlled_by :=
            updateRows (updateRows idx.controlled_by v { e with shadower_id := "" }) v
              { e with
                role := ActorRole.Social
                owner_id := ""
                shadower_id := ""
                is_boid := false
                is_hijacked := false }
          vehicles := idx.vehicles } := by
  have hvid : e.vehicle_id = v := entityFor_vid _ _ _ h
  unfold relinquish_agent_control
  rw [stop_agent_observation_eq idx v e h hv]
  have h2 : entityFor
      (updateRows idx.controlled_by v { e with shadower_id := "" }) v =
      some { e with shadower_id := "" } :=
    entityFor_updateRows_self _ _ _ _ h hvid
  simp only [Option.some_bind]
  rw [if_pos hv]
  unfold updateEntity
  rw [h2]
  rfl

theorem findEntity_after_switch (idx : VehicleIndex) (v a : String)
    (boid hij : Bool) (e : ControlEntity) (h : findEntity idx v = some e)
    (hv : v ∈ idx.vehicles) :
    (switch_control_to_agent idx v a boid hij).bind (fun i => findEntity i v) =
      some
        { e with
          role := if hij then ActorRole.SocialAgent else ActorRole.EgoAgent
          owner_id := a
          shadower_id := ""
          is_boid := boid
          is_hijacked := hij } := by
  rw [switch_control_to_agent_eq idx v a boid hij e h hv]
  simp only [Option.some_bind, findEntity]
  exact entityFor_updateRows_self _ _ e _ h (entityFor_vid idx.controlled_by v e h)

theorem switch_hijack_eq (idx : VehicleIndex) (v a : String) (boid : Bool)
    (e : ControlEntity) (h : findEntity idx v = some e)
    (hv : v ∈ idx.vehicles) :
    switch_control_to_agent idx v a boid true =
      some
        (VehicleIndex.mk
          (updateRows idx.controlled_by v
            { e with
              role := ActorRole.SocialAgent
              owner_id := a
              shadower_id := ""
              is_boid := boid
              is_hijacked := true })
          idx.vehicles) := by
  rw [switch_control_to_agent_eq idx v a boid true e h hv]
  rfl

theorem findEntity_after_hijack (idx : VehicleIndex) (v a : String)
    (boid : Bool) (e : ControlEntity) (h : findEntity idx v = some e)
    (hv : v ∈ idx.vehicles) :
    (switch_control_to_agent idx v a boid true).bind (fun i => findEntity i v) =
      some
        { e with
          role := ActorRole.SocialAgent
          owner_id := a
          shadower_id := ""
          is_boid := boid
          is_hijacked := true } := by
  rw [findEntity_after_switch idx v a boid true e h hv]
  rfl

theorem findEntity_after_relinquish (idx : VehicleIndex) (v : String)
    (e : ControlEntity) (h : findEntity idx v = some e) (hv : v ∈ idx.vehicles) :
    (relinquish_agent_control idx v).map (fun i => (findEntity i v, i.vehicles)) =
      some
        (some
          { e with
            role := ActorRole.Social
            owner_id := ""
            shadower_id := ""
            is_boid := false
            is_hijacked := false },
          idx.vehicles) := by
  have hvid : e.vehicle_id = v := entityFor_vid _ _ _ h
  rw [relinquish_agent_control_eq idx v e h hv]
  simp only [Option.map_some', findEntity]
  rw [entityFor_updateRows_self
    (updateRows idx.controlled_by v { e with shadower_id := "" }) v
    { e with shadower_id := "" }
    { e with
      role := ActorRole.Social
      owner_id := ""
      shadower_id := ""
      is_boid := false
      is_hijacked := false }
    (entityFor_updateRows_self _ _ e { e with shadower_id := "" } h hvid)
    hvid]

/-! ## Claims about the registry (C1, C2, C3, C8, C9) -/

/-- Concrete registry for claims about ownership transfer: one vehicle `v1`
owned by the ego agent `E`. -/
def idxEgoOwned : VehicleIndex :=
  { controlled_by :=
      [{ vehicle_id := "v1"
         owner_id := "E"
         role := ActorRole.EgoAgent
         shadower_id := ""
         is_boid := false
         is_hijacked := false
         position := (0, 0, 0) }]
    vehicles := ["v1"] }

/-- C1 counterexample: with `v1` owned by ego agent `E` (role `EgoAgent`),
`switch_control_to_agent(v1, S, hijacking=True)` with no intervening
relinquish raises no invariant-violation error: it succeeds and reassigns the
record to `owner=S, role=SocialAgent`. -/
theorem switch_control_hijack_no_error_counterexample :
    (switch_control_to_agent idxEgoOwned "v1" "S" false true).map
        (fun i => findEntity i "v1") =
      some (some
        { vehicle_id := "v1"
          owner_id := "S"
          role := ActorRole.SocialAgent
          shadower_id := ""
          is_boid := false
          is_hijacked := true
          position := (0, 0, 0) }) := by
  decide

/-- C1 (amended): for every vehicle `v` whose record has owner `E` with role
`EgoAgent`, `switch_control_to_agent(v, S, hijacking=True)` with a different
new owner `S` and no intervening relinquish succeeds (no error is raised) and
reassigns the record to `owner=S, role=SocialAgent`; after
`relinquish_agent_control(v)` the same transfer equally succeeds with
`owner=S, role=SocialAgent`. -/
theorem switch_control_hijack_reassigns (idx : VehicleIndex) (v E S : String)
    (e : ControlEntity) (h : findEntity idx v = some e)
    (hv : v ∈ idx.vehicles) (hown : e.owner_id = E)
    (hrole : e.role = ActorRole.EgoAgent) (hne : S ≠ E) :
    ((switch_control_to_agent idx v S false true).bind
          (fun i => findEntity i v)).map (fun r => (r.owner_id, r.role)) =
        some (S, ActorRole.SocialAgent)
    ∧ (((relinquish_agent_control idx v).bind
          (fun i => switch_control_to_agent i v S false true)).bind
            (fun i => findEntity i v)).map (fun r => (r.owner_id, r.role)) =
        some (S, ActorRole.SocialAgent) := by
  have hvid : e.vehicle_id = v := entityFor_vid _ _ _ h
  constructor
  · rw [findEntity_after_hijack idx v S false e h hv]
    rfl
  · rw [relinquish_agent_control_eq idx v e h hv]
    simp only [Option.some_bind]
    rw [findEntity_after_hijack
      (VehicleIndex.mk
        (updateRows (updateRows idx.controlled_by v { e with shadower_id := "" }) v
          { e with
            role := ActorRole.Social
            owner_id := ""
            shadower_id := ""
            is_boid := false
            is_hijacked := false })
        idx.vehicles) v S false
      { e with
        role := ActorRole.Social
        owner_id := ""
        shadower_id := ""
        is_boid := false
        is_hijacked := false }
      (entityFor_updateRows_self _ _ { e with shadower_id := "" }
        { e with
          role := ActorRole.Social
          owner_id := ""
          shadower_id := ""
          is_boid := false
          is_hijacked := false }
        (entityFor_updateRows_self _ _ e { e with shadower_id := "" } h hvid)
        hvid)
      hv]
    rfl

/-- Witness for the C1 theorem at the concrete registry `idxEgoOwned`. -/
theorem switch_control_hijack_reassigns_witness :
    ((switch_control_to_agent idxEgoOwned "v1" "S" false true).bind
          (fun i => findEntity i "v1")).map (fun r => (r.owner_id, r.role)) =
        some ("S", ActorRole.SocialAgent)
    ∧ (((relinquish_agent_control idxEgoOwned "v1").bind
          (fun i => switch_control_to_agent i "v1" "S" false true)).bind
            (fun i => findEntity i "v1")).map (fun r => (r.owner_id, r.role)) =
        some ("S", ActorRole.SocialAgent) :=
  switch_control_hijack_reassigns idxEgoOwned "v1" "E" "S" _ rfl
    (by decide) rfl rfl (by decide)

/-- C2: for every vehicle `v` present in the registry,
`switch_control_to_agent(v, A, hijacking=True)` followed by
`relinquish_agent_control(v)` leaves the record of `v` with an empty owner id
(the spec's `owner=None`), role `Social` (the spec's `Traffic`), cleared
shadower, boid and hijacked flags, the vehicle id preserved and the cached
position of the original record (the same record, not a new one); the
registered vehicle set is unchanged. -/
theorem transfer_then_relinquish_roundtrip (idx : VehicleIndex) (v A : String)
    (e : ControlEntity) (h : findEntity idx v = some e)
    (hv : v ∈ idx.vehicles) :
    ((switch_control_to_agent idx v A false true).bind
          (fun i => relinquish_agent_control i v)).map
        (fun i => (findEntity i v, i.vehicles)) =
      some
        (some
          { vehicle_id := v
            owner_id := ""
            role := ActorRole.Social
            shadower_id := ""
            is_boid := false
            is_hijacked := false
            position := e.position },
          idx.vehicles) := by
  have hvid : e.vehicle_id = v := entityFor_vid _ _ _ h
  rw [switch_hijack_eq idx v A false e h hv]
  simp only [Option.some_bind]
  rw [findEntity_after_relinquish
    (VehicleIndex.mk
      (updateRows idx.controlled_by v
        { e with
          role := ActorRole.SocialAgent
          owner_id := A
          shadower_id := ""
          is_boid := false
          is_hijacked := true })
      idx.vehicles) v
    { e with
      role := ActorRole.SocialAgent
      owner_id := A
      shadower_id := ""
      is_boid := false
      is_hijacked := true }
    (entityFor_updateRows_self _ _ e
      { e with
        role := ActorRole.SocialAgent
        owner_id := A
        shadower_id := ""
        is_boid := false
        is_hijacked := true } h hvid)
    hv]
  simp [hvid]

/-- Witness for the C2 theorem at the concrete registry `idxEgoOwned`. -/
theorem transfer_then_relinquish_roundtrip_witness :
    ((switch_control_to_agent idxEgoOwned "v1" "A" false true).bind
          (fun i => relinquish_agent_control i "v1")).map
        (fun i => (findEntity i "v1", i.vehicles)) =
      some
        (some
          { vehicle_id := "v1"
            owner_id := ""
            role := ActorRole.Social
            shadower_id := ""
            is_boid := false
            is_hijacked := false
            position := (0, 0, 0) },
          ["v1"]) :=
  transfer_then_relinquish_roundtrip idxEgoOwned "v1" "A" _ rfl (by decide)

/-- C3: for every vehicle known to the registry,
`switch_control_to_agent(v, a, boid, hijacking)` on the non-recreate path
succeeds and rewrites the record of `v` to
`role = SocialAgent if hijacking else EgoAgent`, `owner_id = a`,
`shadower_id` empty, `is_hijacked = hijacking`, `is_boid = boid`, leaving all
records of other vehicles and the vehicle set unchanged. -/
theorem switch_control_updates_record (idx : VehicleIndex) (v a : String)
    (boid hij : Bool) (e : ControlEntity) (h : findEntity idx v = some e)
    (hv : v ∈ idx.vehicles) :
    (switch_control_to_agent idx v a boid hij).map
        (fun i =>
          (findEntity i v,
            i.controlled_by.filter (fun r => !decide (r.vehicle_id = v)),
            i.vehicles)) =
      some
        (some
          { e with
            role := if hij then ActorRole.SocialAgent else ActorRole.EgoAgent
            owner_id := a
            shadower_id := ""
            is_boid := boid
            is_hijacked := hij },
          idx.controlled_by.filter (fun r => !decide (r.vehicle_id = v)),
          idx.vehicles) := by
  have hvid : e.vehicle_id = v := entityFor_vid _ _ _ h
  rw [switch_control_to_agent_eq idx v a boid hij e h hv]
  simp only [Option.map_some', findEntity]
  rw [entityFor_updateRows_self idx.controlled_by v e
    { e with
      role := if hij then ActorRole.SocialAgent else ActorRole.EgoAgent
      owner_id := a
      shadower_id := ""
      is_boid := boid
      is_hijacked := hij } h hvid]
  rw [updateRows_filter_ne idx.controlled_by v
    { e with
      role := if hij then ActorRole.SocialAgent else ActorRole.EgoAgent
      owner_id := a
      shadower_id := ""
      is_boid := boid
      is_hijacked := hij } hvid]

/-- Witness for the C3 theorem: a hijacking boid takeover of a traffic
vehicle next to an unrelated second record. -/
def idxTwoVehicles : VehicleIndex :=
  { controlled_by :=
      [{ vehicle_id := "t1"
         owner_id := ""
         role := ActorRole.Social
         shadower_id := "B"
         is_boid := false
         is_hijacked := false
         position := (5, 6, 7) },
       { vehicle_id := "t2"
         owner_id := ""
         role := ActorRole.Social
         shadower_id := ""
         is_boid := false
         is_hijacked := false
         position := (8, 9, 10) }]
    vehicles := ["t1", "t2"] }

/-- Witness for the C3 theorem at the concrete registry `idxTwoVehicles`. -/
theorem switch_control_updates_record_witness :
    (switch_control_to_agent idxTwoVehicles "t1" "B" true true).map
        (fun i =>
          (findEntity i "t1",
            i.controlled_by.filter (fun r => !decide (r.vehicle_id = "t1")),
            i.vehicles)) =
      some
        (some
          { vehicle_id := "t1"
            owner_id := "B"
            role := ActorRole.SocialAgent
            shadower_id := ""
            is_boid := true
            is_hijacked := true
            position := (5, 6, 7) },
          [{ vehicle_id := "t2"
             owner_id := ""
             role := ActorRole.Social
             shadower_id := ""
             is_boid := false
             is_hijacked := false
             position := (8, 9, 10) }],
          ["t1", "t2"]) :=
  switch_control_updates_record idxTwoVehicles "t1" "B" true true _ rfl
    (by decide)

/-- C8: `build_social_vehicle` rejects a vehicle state whose role is
`EgoAgent` or `SocialAgent` (the failing assert inserts no record); for every
other role it inserts a fresh record carrying that role, the given owner (the
empty string when absent), no shadower, and `is_boid = is_hijacked = False`. -/
theorem build_social_vehicle_rejects_agent_roles (idx : VehicleIndex)
    (role : ActorRole) (owner_id : Option String) (vid : String)
    (pos : Int × Int × Int) :
    ((role = ActorRole.EgoAgent ∨ role = ActorRole.SocialAgent) →
        build_social_vehicle idx role owner_id vid pos = Option.none)
    ∧ (¬(role = ActorRole.EgoAgent ∨ role = ActorRole.SocialAgent) →
        (build_social_vehicle idx role owner_id vid pos).map
            (fun i => findEntity i vid) =
          some (some
            { vehicle_id := vid
              owner_id := orElseId owner_id ""
              role := role
              shadower_id := ""
              is_boid := false
              is_hijacked := false
              position := pos })) := by
  constructor
  · intro hrole
    unfold build_social_vehicle
    rw [if_pos hrole]
  · intro hrole
    unfold build_social_vehicle
    rw [if_neg hrole]
    simp [findEntity, entityFor, List.find?_cons_of_pos]

/-- Witness for the C8 theorem: an `EgoAgent`-role state is rejected and a
`Social`-role state is inserted. -/
theorem build_social_vehicle_rejects_agent_roles_witness :
    build_social_vehicle idxEgoOwned ActorRole.EgoAgent Option.none "x" (1, 1, 1)
        = Option.none
    ∧ (build_social_vehicle idxEgoOwned ActorRole.Social (some "O") "x"
          (1, 1, 1)).map (fun i => findEntity i "x") =
        some (some
          { vehicle_id := "x"
            owner_id := "O"
            role := ActorRole.Social
            shadower_id := ""
            is_boid := false
            is_hijacked := false
            position := (1, 1, 1) }) :=
  ⟨(build_social_vehicle_rejects_agent_roles idxEgoOwned ActorRole.EgoAgent
      Option.none "x" (1, 1, 1)).1 (Or.inl rfl),
    (build_social_vehicle_rejects_agent_roles idxEgoOwned ActorRole.Social
      (some "O") "x" (1, 1, 1)).2 (by decide)⟩

/-- C9: for every vehicle id with no record in the registry, the queries
`owner_id_from_vehicle_id`, `vehicle_is_hijacked_or_shadowed` and
`vehicle_position` return `None`, `(False, False)` and `None` respectively
instead of raising. -/
theorem stale_vehicle_queries_return_none (idx : VehicleIndex) (vid : String)
    (h : findEntity idx vid = Option.none) :
    owner_id_from_vehicle_id idx vid = Option.none
    ∧ vehicle_is_hijacked_or_shadowed idx vid = (false, false)
    ∧ vehicle_position idx vid = Option.none := by
  refine ⟨?_, ?_, ?_⟩
  · unfold owner_id_from_vehicle_id
    rw [h]
  · unfold vehicle_is_hijacked_or_shadowed
    rw [h]
  · unfold vehicle_position
    rw [h]
    rfl

/-- Witness for the C9 theorem: querying a torn-down vehicle id against
`idxEgoOwned`. -/
theorem stale_vehicle_queries_return_none_witness :
    owner_id_from_vehicle_id idxEgoOwned "gone" = Option.none
    ∧ vehicle_is_hijacked_or_shadowed idxEgoOwned "gone" = (false, false)
    ∧ vehicle_position idxEgoOwned "gone" = Option.none :=
  stale_vehicle_queries_return_none idxEgoOwned "gone" (by decide)

/-! ## Claims about the lifecycle manager (C4, C5, C6, C7, C10) -/

/-- A concrete manager holding one non-keep-alive boid agent `B` that only
shadows the traffic vehicle `t1` and owns nothing. -/
def mgrShadowBoid : AgentManager Nat Nat :=
  { vehicle_index :=
      { controlled_by :=
          [{ vehicle_id := "t1"
             owner_id := ""
             role := ActorRole.Social
             shadower_id := "B"
             is_boid := true
             is_hijacked := false
             position := (0, 0, 0) }]
        vehicles := ["t1"] }
    ego_agent_ids := []
    social_agent_ids := ["B"]
    pending_agent_ids := []
    pending_social_agent_ids := []
    social_agent_data_models :=
      [("B", { actor_name := "B", is_boid := true, is_boid_keep_alive := false })]
    remote_social_agents := []
    remote_social_agents_action := []
    reserved_social_agent_actions := []
    providers := []
    agent_buffer_acquired := 0 }

/-- C4 counterexample: `B` is a non-keep-alive boid agent that controls zero
vehicles (it owns none, it only shadows `t1`), yet `is_boid_done` returns
false, not the true the claim requires. -/
theorem is_boid_done_shadow_counterexample :
    AgentManager.is_boid_agent mgrShadowBoid "B" = true
    ∧ AgentManager.is_boid_keep_alive_agent mgrShadowBoid "B" = false
    ∧ vehicle_ids_by_owner_id mgrShadowBoid.vehicle_index "B" false = []
    ∧ ¬(AgentManager.is_boid_done mgrShadowBoid "B" = true) := by
  refine ⟨rfl, rfl, rfl, ?_⟩
  decide

/-- C4 (amended): `is_boid_done` returns false for a keep-alive boid agent
and otherwise returns true exactly when the agent currently has zero
associated vehicles, counting shadowed vehicles as well as owned ones. -/
theorem is_boid_done_characterization {β Obs : Type} (mgr : AgentManager β Obs)
    (agent_id : String) :
    AgentManager.is_boid_done mgr agent_id =
      (!AgentManager.is_boid_keep_alive_agent mgr agent_id
        && (AgentManager.vehicles_for_agent mgr agent_id).isEmpty) := by
  cases hk : AgentManager.is_boid_keep_alive_agent mgr agent_id with
  | true => simp [AgentManager.is_boid_done, hk]
  | false =>
    cases hl : AgentManager.vehicles_for_agent mgr agent_id with
    | nil =>
      simp [AgentManager.is_boid_done, AgentManager.agent_has_vehicle, hk, hl]
    | cons x xs =>
      simp [AgentManager.is_boid_done, AgentManager.agent_has_vehicle, hk, hl]

/-- A concrete manager whose roster already holds the social agent `A`. -/
def mgrBusy : AgentManager Nat Nat :=
  { vehicle_index := { controlled_by := [], vehicles := [] }
    ego_agent_ids := []
    social_agent_ids := ["A"]
    pending_agent_ids := []
    pending_social_agent_ids := []
    social_agent_data_models :=
      [("A", { actor_name := "A", is_boid := false, is_boid_keep_alive := false })]
    remote_social_agents := []
    remote_social_agents_action := []
    reserved_social_agent_actions := []
    providers := [{ has_action := true, can_accept := true }]
    agent_buffer_acquired := 0 }

/-- A concrete empty manager with one accepting provider. -/
def mgrFresh : AgentManager Nat Nat :=
  { vehicle_index := { controlled_by := [], vehicles := [] }
    ego_agent_ids := []
    social_agent_ids := []
    pending_agent_ids := []
    pending_social_agent_ids := []
    social_agent_data_models := []
    remote_social_agents := []
    remote_social_agents_action := []
    reserved_social_agent_actions := []
    providers := [{ has_action := true, can_accept := true }]
    agent_buffer_acquired := 0 }

/-- C7: `add_and_emit_social_agent` returns `False` and leaves the manager
(roster, registry and controller pool) entirely unchanged when the agent id is
already an active ego/social agent id or a pending agent id; for a fresh agent
id (when some provider accepts the vehicle) it returns `True` and the id is
afterwards among the social agent ids. -/
theorem add_and_emit_social_agent_spec {β Obs : Type}
    (mgr : AgentManager β Obs) (agent_id : String)
    (agent_model : SocialAgentModel) (remote_agent : Obs → PyVal β)
    (pos : Int × Int × Int) :
    ((agent_id ∈ mgr.ego_agent_ids ∨ agent_id ∈ mgr.social_agent_ids
          ∨ agent_id ∈ mgr.pending_agent_ids) →
        AgentManager.add_and_emit_social_agent mgr agent_id agent_model
            remote_agent pos = some (false, mgr))
    ∧ (¬(agent_id ∈ mgr.ego_agent_ids ∨ agent_id ∈ mgr.social_agent_ids
          ∨ agent_id ∈ mgr.pending_agent_ids) →
        mgr.providers.any (fun p => p.has_action && p.can_accept) = true →
        (AgentManager.add_and_emit_social_agent mgr agent_id agent_model
              remote_agent pos).map
            (fun pr => (pr.1, decide (agent_id ∈ pr.2.social_agent_ids))) =
          some (true, true)) := by
  constructor
  · intro hmem
    unfold AgentManager.add_and_emit_social_agent
    rw [if_pos hmem]
  · intro hmem hprov
    have hnot : agent_id ∉ mgr.social_agent_ids := fun hc =>
      hmem (Or.inr (Or.inl hc))
    unfold AgentManager.add_and_emit_social_agent
    rw [if_neg hmem]
    simp only [AgentManager.add_agent, hprov, if_true, Option.map_some']
    simp [hnot]

/-- Witness for the C7 theorem: adding `A` to `mgrBusy` is rejected with the
manager unchanged; adding `B` to `mgrFresh` succeeds and registers `B` as a
social agent. -/
theorem add_and_emit_social_agent_spec_witness :
    AgentManager.add_and_emit_social_agent mgrBusy "A"
        { actor_name := "A", is_boid := false, is_boid_keep_alive := false }
        (fun _ => PyVal.none) (0, 0, 0) = some (false, mgrBusy)
    ∧ (AgentManager.add_and_emit_social_agent mgrFresh "B"
          { actor_name := "B", is_boid := false, is_boid_keep_alive := false }
          (fun _ => PyVal.none) (0, 0, 0)).map
        (fun pr => (pr.1, decide ("B" ∈ pr.2.social_agent_ids))) =
      some (true, true) :=
  ⟨(add_and_emit_social_agent_spec mgrBusy "A"
      { actor_name := "A", is_boid := false, is_boid_keep_alive := false }
      (fun _ => PyVal.none) (0, 0, 0)).1 (Or.inr (Or.inl (by decide))),
    (add_and_emit_social_agent_spec mgrFresh "B"
      { actor_name := "B", is_boid := false, is_boid_keep_alive := false }
      (fun _ => PyVal.none) (0, 0, 0)).2 (by decide) (by decide)⟩

/-- The element function of the boid sub-filter preserves dictionary keys. -/
theorem boid_filter_key {β Obs : Type} (mgr : AgentManager β Obs)
    (p q : String × PyVal β)
    (h : (if AgentManager.is_boid_agent mgr p.1 then
          match p.2 with
          | PyVal.dict m =>
            some (p.1, PyVal.dict (m.filter (fun r =>
              decide (r.1 ∈ vehicle_ids_by_owner_id mgr.vehicle_index p.1 false))))
          | _ => Option.none
        else some p) = some q) : q.1 = p.1 := by
  obtain ⟨pa, pv⟩ := p
  by_cases hb : AgentManager.is_boid_agent mgr pa
  · rw [if_pos hb] at h
    cases pv with
    | dict m =>
      cases h
      rfl
    | none => exact absurd h (by simp)
    | flat b => exact absurd h (by simp)
  · rw [if_neg hb] at h
    cases h
    rfl

/-- C5: when the social-action filter succeeds, `fetch_agent_actions` returns
the Python merge of the supplied ego actions with the filtered social
actions; every agent surviving the filter owns (not merely shadows) at least
one agent-controlled vehicle; the per-vehicle dictionary of a surviving boid
agent is exactly the resolved dictionary filtered to the sub-vehicles the
agent owns; and whenever the ego and surviving social key sets are disjoint,
the result contains every supplied ego action unchanged. -/
theorem fetch_agent_actions_filters_and_merges {β Obs : Type}
    (mgr : AgentManager β Obs) (ego social2 : List (String × PyVal β))
    (hfilter : AgentManager.filter_social_agent_actions_for_controlled_vehicles
        mgr (AgentManager.resolved_social_actions mgr) = some social2) :
    AgentManager.fetch_agent_actions mgr ego = some (pyMerge ego social2)
    ∧ (∀ a ∈ dkeys social2, ∃ vid ∈ agent_vehicle_ids mgr.vehicle_index,
        owner_id_from_vehicle_id mgr.vehicle_index vid = some a)
    ∧ (∀ a m0, AgentManager.is_boid_agent mgr a = true →
        some a ∈ AgentManager.controlling_agent_ids mgr →
        dget (AgentManager.resolved_social_actions mgr) a = some (PyVal.dict m0) →
        dget social2 a = some (PyVal.dict (m0.filter (fun r =>
          decide (r.1 ∈ vehicle_ids_by_owner_id mgr.vehicle_index a false)))))
    ∧ ((∀ k ∈ dkeys ego, dget social2 k = Option.none) →
        ∀ k v, dget ego k = some v → dget (pyMerge ego social2) k = some v) := by
  unfold AgentManager.filter_social_agent_actions_for_controlled_vehicles
    at hfilter
  refine ⟨?_, ?_, ?_, ?_⟩
  · unfold AgentManager.fetch_agent_actions
      AgentManager.filter_social_agent_actions_for_controlled_vehicles
    rw [hfilter]
    rfl
  · intro a ha
    have hkeys := AgentManager.dkeys_omap _ (fun p q h => boid_filter_key mgr p q h)
      _ social2 hfilter
    rw [hkeys] at ha
    rcases List.mem_map.mp ha with ⟨p, hp, hpk⟩
    rcases List.mem_filter.mp hp with ⟨hpres, hpred⟩
    have hctl : some p.1 ∈ AgentManager.controlling_agent_ids mgr :=
      of_decide_eq_true hpred
    rw [hpk] at hctl
    rcases List.mem_map.mp hctl with ⟨vid, hvid, hvown⟩
    exact ⟨vid, hvid, hvown⟩
  · intro a m0 hboid hctl hres
    have hfind := AgentManager.find?_omap _
      (fun p q h => boid_filter_key mgr p q h) _ social2 hfilter a
    have hkd : ∀ p : String × PyVal β, p.1 = a →
        (fun p => decide (some p.1 ∈ AgentManager.controlling_agent_ids mgr)) p
          = true := by
      intro p hp
      simp only [hp]
      exact decide_eq_true hctl
    rw [find?_filter_keydep _ _ a hkd] at hfind
    rcases hres1 : (AgentManager.resolved_social_actions mgr).find?
        (fun p => decide (p.1 = a)) with _ | p0
    · unfold dget at hres
      rw [hres1] at hres
      exact absurd hres (by simp)
    · have hp0a : p0.1 = a := by
        have := List.find?_some hres1
        simpa using this
      have hp0v : p0.2 = PyVal.dict m0 := by
        unfold dget at hres
        rw [hres1] at hres
        simpa using hres
      rw [hres1] at hfind
      unfold dget
      rw [hfind]
      simp only [Option.some_bind]
      obtain ⟨q0a, q0v⟩ := p0
      simp only at hp0a hp0v
      subst hp0a
      subst hp0v
      dsimp only
      rw [hboid]
      rfl
  · intro hdisj k v hv
    have hk := mem_dkeys_of_dget ego k v hv
    rw [dget_pyMerge_of_none ego social2 k (hdisj k hk)]
    exact hv

/-- A concrete manager with one remote social agent `S` that owns the hijacked
vehicle `vS` and has a resolved action. -/
def mgrOneSocial : AgentManager Nat Nat :=
  { vehicle_index :=
      { controlled_by :=
          [{ vehicle_id := "vS"
             owner_id := "S"
             role := ActorRole.SocialAgent
             shadower_id := ""
             is_boid := false
             is_hijacked := true
             position := (0, 0, 0) }]
        vehicles := ["vS"] }
    ego_agent_ids := ["E"]
    social_agent_ids := ["S"]
    pending_agent_ids := []
    pending_social_agent_ids := []
    social_agent_data_models :=
      [("S", { actor_name := "S", is_boid := false, is_boid_keep_alive := false })]
    remote_social_agents := [("S", fun _ => PyVal.flat 2)]
    remote_social_agents_action := [("S", PyVal.flat 2)]
    reserved_social_agent_actions := []
    providers := []
    agent_buffer_acquired := 0 }

/-- Witness for the C5 theorem at `mgrOneSocial` with the disjoint ego action
dictionary `{E: 1}`. -/
theorem fetch_agent_actions_filters_and_merges_witness :
    AgentManager.fetch_agent_actions mgrOneSocial [("E", PyVal.flat 1)] =
        some (pyMerge [("E", PyVal.flat 1)] [("S", PyVal.flat 2)])
    ∧ dget (pyMerge [("E", PyVal.flat 1)] [("S", PyVal.flat 2)]) "E" =
        some (PyVal.flat 1) :=
  have h := fetch_agent_actions_filters_and_merges mgrOneSocial
    [("E", PyVal.flat 1)] [("S", PyVal.flat 2)] rfl
  ⟨h.1, h.2.2.2 (by decide) "E" (PyVal.flat 1) rfl⟩

/-- C6: a reserved social-agent action is packaged at observation-dispatch
time as an already-resolved result, no controller request is issued for that
agent that tick, the whole reservation table is cleared, and (provided the
agent is a non-boid agent owning an agent-controlled vehicle)
`fetch_agent_actions` returns the reserved action unchanged. -/
theorem reserved_action_one_shot {β Obs : Type} (mgr : AgentManager β Obs)
    (observations : List (String × Obs)) (a : String) (r : PyVal β)
    (ego : List (String × PyVal β)) (mgr1 : AgentManager β Obs)
    (req : List String)
    (hres : dget mgr.reserved_social_agent_actions a = some r)
    (hrem : a ∈ dkeys mgr.remote_social_agents)
    (hsend : AgentManager.send_observations_to_social_agents mgr observations =
      some (mgr1, req)) :
    a ∉ req
    ∧ dget mgr1.remote_social_agents_action a = some r
    ∧ mgr1.reserved_social_agent_actions = []
    ∧ (AgentManager.is_boid_agent mgr1 a = false →
        some a ∈ AgentManager.controlling_agent_ids mgr1 →
        ∀ res, AgentManager.fetch_agent_actions mgr1 ego = some res →
          dget res a = some r) := by
  unfold AgentManager.send_observations_to_social_agents at hsend
  rcases hgo : AgentManager.send_go observations mgr.remote_social_agents
      mgr.reserved_social_agent_actions [] with _ | pr
  · rw [hgo] at hsend
    exact absurd hsend (by simp)
  · rw [hgo] at hsend
    simp only [Option.map_some'] at hsend
    have hkeep := AgentManager.send_go_keeps observations a r
      mgr.remote_social_agents mgr.reserved_social_agent_actions [] hres
      (by simp) pr hgo
    cases hsend
    refine ⟨hkeep.2, hkeep.1, rfl, ?_⟩
    intro hboid hctl res hfetch
    unfold AgentManager.fetch_agent_actions at hfetch
    rcases hf : AgentManager.filter_social_agent_actions_for_controlled_vehicles
        { mgr with
          remote_social_agents_action := pr.1
          reserved_social_agent_actions := [] }
        (AgentManager.resolved_social_actions
          { mgr with
            remote_social_agents_action := pr.1
            reserved_social_agent_actions := [] }) with _ | s2
    · rw [hf] at hfetch
      exact absurd hfetch (by simp)
    · rw [hf] at hfetch
      simp only [Option.map_some'] at hfetch
      cases hfetch
      refine dget_pyMerge_right ego s2 a r ?_
      unfold AgentManager.filter_social_agent_actions_for_controlled_vehicles
        at hf
      have hfind := AgentManager.find?_omap _
        (fun p q h => boid_filter_key _ p q h) _ s2 hf a
      have hkd : ∀ p : String × PyVal β, p.1 = a →
          (fun p => decide (some p.1 ∈ AgentManager.controlling_agent_ids
            { mgr with
              remote_social_agents_action := pr.1
              reserved_social_agent_actions := [] })) p = true := by
        intro p hp
        simp only [hp]
        exact decide_eq_true hctl
      rw [find?_filter_keydep _ _ a hkd] at hfind
      have hresf : (AgentManager.resolved_social_actions
          { mgr with
            remote_social_agents_action := pr.1
            reserved_social_agent_actions := [] }).find?
            (fun p => decide (p.1 = a)) = some (a, r) := by
        unfold AgentManager.resolved_social_actions
        rw [find?_map_keyed
          (fun k => (dget pr.1 k).getD PyVal.none) mgr.remote_social_agents a]
        rcases find?_of_mem_dkeys mgr.remote_social_agents a hrem
          with ⟨p0, hp0, hp0k⟩
        rw [hp0]
        simp only [Option.map_some']
        rw [hp0k, hkeep.1]
        rfl
      rw [hresf] at hfind
      unfold dget
      rw [hfind]
      simp only [Option.some_bind]
      simp only [hboid, if_false]
      rfl

/-- A concrete manager with a reserved action for remote agent `A` and an
unreserved remote agent `B`, both owning hijacked vehicles. -/
def mgrReserved : AgentManager Nat Nat :=
  { vehicle_index :=
      { controlled_by :=
          [{ vehicle_id := "vA"
             owner_id := "A"
             role := ActorRole.SocialAgent
             shadower_id := ""
             is_boid := false
             is_hijacked := true
             position := (0, 0, 0) },
           { vehicle_id := "vB"
             owner_id := "B"
             role := ActorRole.SocialAgent
             shadower_id := ""
             is_boid := false
             is_hijacked := true
             position := (0, 0, 0) }]
        vehicles := ["vA", "vB"] }
    ego_agent_ids := ["E"]
    social_agent_ids := ["A", "B"]
    pending_agent_ids := []
    pending_social_agent_ids := []
    social_agent_data_models :=
      [("A", { actor_name := "A", is_boid := false, is_boid_keep_alive := false }),
       ("B", { actor_name := "B", is_boid := false, is_boid_keep_alive := false })]
    remote_social_agents :=
      [("A", fun _ => PyVal.flat 9), ("B", fun _ => PyVal.flat 5)]
    remote_social_agents_action := []
    reserved_social_agent_actions := [("A", PyVal.flat 7)]
    providers := []
    agent_buffer_acquired := 0 }

/-- The manager state after dispatching observations on `mgrReserved`. -/
def mgrReservedSent : AgentManager Nat Nat :=
  { mgrReserved with
    remote_social_agents_action := [("A", PyVal.flat 7), ("B", PyVal.flat 5)]
    reserved_social_agent_actions := [] }

/-- Witness for the C6 theorem at `mgrReserved`: agent `A` keeps its reserved
action `7`, only `B` gets a controller request, the reservation table is
cleared, and the fetched action for `A` is `7` (not the controller answer
`9`). -/
theorem reserved_action_one_shot_witness :
    "A" ∉ ["B"]
    ∧ dget mgrReservedSent.remote_social_agents_action "A" =
        some (PyVal.flat 7)
    ∧ mgrReservedSent.reserved_social_agent_actions = []
    ∧ dget [("E", PyVal.flat 1), ("A", PyVal.flat 7), ("B", PyVal.flat 5)] "A" =
        some (PyVal.flat 7) :=
  have h := reserved_action_one_shot mgrReserved [("A", 0), ("B", 0)] "A"
    (PyVal.flat 7) [("E", PyVal.flat 1)] mgrReservedSent ["B"] rfl (by decide)
    rfl
  ⟨h.1, h.2.1, h.2.2.1,
    h.2.2.2 rfl (by decide)
      [("E", PyVal.flat 1), ("A", PyVal.flat 7), ("B", PyVal.flat 5)] rfl⟩

/-- C10: in the dictionary returned by `fetch_agent_actions`, a key present
both in the supplied ego actions and in the surviving social agent actions
receives the social agent's action: the ego action is silently overwritten
and no error is raised on the collision. -/
theorem fetch_social_overrides_ego {β Obs : Type} (mgr : AgentManager β Obs)
    (ego social2 : List (String × PyVal β)) (k : String) (v : PyVal β)
    (hfilter : AgentManager.filter_social_agent_actions_for_controlled_vehicles
        mgr (AgentManager.resolved_social_actions mgr) = some social2)
    (hk : k ∈ dkeys ego) (hv : dget social2 k = some v) :
    AgentManager.fetch_agent_actions mgr ego = some (pyMerge ego social2)
    ∧ dget (pyMerge ego social2) k = some v := by
  constructor
  · unfold AgentManager.fetch_agent_actions
    rw [hfilter]
    rfl
  · exact dget_pyMerge_right ego social2 k v hv

/-- Witness for the C10 theorem: the ego dictionary also carries a value for
the social agent `S`; the merged result holds the social action `2`, not the
ego value `1`. -/
theorem fetch_social_overrides_ego_witness :
    AgentManager.fetch_agent_actions mgrOneSocial [("S", PyVal.flat 1)] =
        some (pyMerge [("S", PyVal.flat 1)] [("S", PyVal.flat 2)])
    ∧ dget (pyMerge [("S", PyVal.flat 1)] [("S", PyVal.flat 2)]) "S" =
        some (PyVal.flat 2) :=
  fetch_social_overrides_ego mgrOneSocial [("S", PyVal.flat 1)]
    [("S", PyVal.flat 2)] "S" (PyVal.flat 2) rfl (by decide) rfl

end SMARTS
